import Mathlib

/-!
Shallow embedding of the matching and ingestion logic of the
med-sage-guardian dashboard.

The interaction/allergy matching logic lives in the main dashboard
component (`checkAllergies`, `analyzeInteractions`, `mockInteractions`);
the dataset ingestion logic lives in `DatasetManager.tsx`
(`handleFileUpload`, `exportDataset`).  JavaScript strings are modelled
as Lean `String` (a list of characters); `String.prototype.includes`,
`trim`, `toLowerCase`, `split` and `replace` are modelled by the
executable character-list functions below.
-/

namespace MedSage

/-- Test whether the second character list is an initial segment of the
first; models JavaScript `startsWith` and is the building block of the
substring test. -/
def charsStartWith : List Char → List Char → Bool
  | _, [] => true
  | [], _ :: _ => false
  | c :: cs, d :: ds => (c = d) && charsStartWith cs ds

/-- Test whether the second character list occurs contiguously inside the
first. -/
def charsContain : List Char → List Char → Bool
  | [], sub => sub.isEmpty
  | c :: cs, sub => charsStartWith (c :: cs) sub || charsContain cs sub

/-- Model of JavaScript `s.includes(sub)`: substring containment. -/
def strIncludes (s sub : String) : Bool :=
  charsContain s.data sub.data

/-- Model of JavaScript `s.toLowerCase()` (ASCII range, which is all the
code exercises). -/
def strLower (s : String) : String :=
  ⟨s.data.map Char.toLower⟩

/-- ASCII whitespace, the characters relevant to the repository's data. -/
def isWhite (c : Char) : Bool :=
  c = ' ' || c = '\t' || c = '\n' || c = '\r'

/-- Drop leading and trailing whitespace from a character list. -/
def trimChars (l : List Char) : List Char :=
  ((l.dropWhile isWhite).reverse.dropWhile isWhite).reverse

/-- Model of JavaScript `s.trim()`. -/
def strTrim (s : String) : String :=
  ⟨trimChars s.data⟩

/-- Split a character list at every occurrence of `sep`, JavaScript
`split` semantics: the empty list yields one empty field, a trailing
separator yields a trailing empty field. -/
def splitOnChar (sep : Char) : List Char → List (List Char)
  | [] => [[]]
  | c :: cs =>
    let r := splitOnChar sep cs
    if c = sep then [] :: r
    else
      match r with
      | [] => [[c]]
      | h :: t => (c :: h) :: t

/-- Model of JavaScript `s.split(sep)` for a one-character separator. -/
def strSplit (sep : Char) (s : String) : List String :=
  (splitOnChar sep s.data).map (fun l => ⟨l⟩)

/-- Model of JavaScript `s.replace(/c/g, '')`: remove every occurrence of
a character. -/
def removeAllChar (target : Char) : List Char → List Char
  | [] => []
  | c :: cs => if c = target then removeAllChar target cs
               else c :: removeAllChar target cs

/-- DrugEntry, from the dashboard component's `DrugEntry` interface. -/
structure DrugEntry where
  id : String
  name : String
  dosage : String
  frequency : String
deriving Repr, DecidableEq

/-- DrugInteractionData, from the `DrugInteractionData` interface shared
by the dashboard and `DatasetManager.tsx`.  The TypeScript severity union
is not enforced at runtime (CSV ingestion casts an arbitrary lowercased
string into it), so severity is modelled as a plain string. -/
structure DrugInteractionData where
  drug1 : String
  drug2 : String
  severity : String
  description : String
  recommendation : String
  mechanism : String := ""
  evidence_level : String := ""
deriving Repr, DecidableEq

/-- InteractionResult, from the dashboard's `InteractionResult`
interface. -/
structure InteractionResult where
  severity : String
  drugs : List String
  description : String
  recommendation : String
deriving Repr, DecidableEq

/-- AllergyAlert, from the dashboard's `AllergyAlert` interface. -/
structure AllergyAlert where
  drug : String
  allergen : String
  severity : String
  symptoms : String
  recommendation : String
deriving Repr, DecidableEq

/-- The hardcoded `mockInteractions` list from the dashboard component. -/
def mockInteractions : List InteractionResult :=
  [ { severity := "severe",
      drugs := ["Warfarin", "Aspirin"],
      description := "Increased risk of bleeding when used together",
      recommendation := "Consider alternative antiplatelet therapy or adjust warfarin dosing with frequent monitoring" },
    { severity := "moderate",
      drugs := ["Metformin", "Contrast Agent"],
      description := "Risk of lactic acidosis with contrast procedures",
      recommendation := "Discontinue metformin 48 hours before and after contrast administration" } ]

/-- One allergen class of the `commonAllergicReactions` record inside
`checkAllergies`. -/
structure AllergyClassInfo where
  allergens : List String
  symptoms : String
  severity : String
deriving Repr, DecidableEq

/-- The `commonAllergicReactions` table from `checkAllergies`, in the
object's insertion order. -/
def commonAllergicReactions : List (String × AllergyClassInfo) :=
  [ ("penicillin",
     { allergens := ["penicillin", "amoxicillin", "ampicillin"],
       symptoms := "Rash, hives, swelling, difficulty breathing",
       severity := "severe" }),
    ("sulfa",
     { allergens := ["sulfamethoxazole", "trimethoprim", "sulfasalazine"],
       symptoms := "Skin rash, fever, nausea",
       severity := "moderate" }),
    ("aspirin",
     { allergens := ["aspirin", "acetylsalicylic acid"],
       symptoms := "Breathing problems, hives, stomach upset",
       severity := "moderate" }),
    ("iodine",
     { allergens := ["iodine", "contrast dye"],
       symptoms := "Skin reactions, breathing difficulties",
       severity := "severe" }),
    ("latex",
     { allergens := ["latex"],
       symptoms := "Skin irritation, respiratory symptoms",
       severity := "mild" }) ]

/-- The alerts `checkAllergies` pushes for one (drug, allergy) pair: the
direct-substring alert first (the code lowercases and trims the allergy
string but only lowercases the drug name), then one alert per allergen
class whose key occurs in the allergy and one of whose representative
substrings occurs in the drug name. -/
def pairAlerts (drug : DrugEntry) (allergy : String) : List AllergyAlert :=
  let allergyLower := strTrim (strLower allergy)
  let drugLower := strLower drug.name
  let direct : List AllergyAlert :=
    if strIncludes drugLower allergyLower || strIncludes allergyLower drugLower then
      [{ drug := drug.name,
         allergen := allergy,
         severity := "severe",
         symptoms := "Allergic reaction possible",
         recommendation := "AVOID " ++ drug.name ++ " - Patient is allergic to " ++ allergy }]
    else []
  let classAlerts : List AllergyAlert :=
    commonAllergicReactions.filterMap (fun ai =>
      if strIncludes allergyLower ai.1 &&
         ai.2.allergens.any (fun a => strIncludes drugLower a) then
        some { drug := drug.name,
               allergen := allergy,
               severity := ai.2.severity,
               symptoms := ai.2.symptoms,
               recommendation := "CONTRAINDICATED - " ++ drug.name ++ " contains " ++ ai.1 ++ " which patient is allergic to" }
      else none)
  direct ++ classAlerts

/-- The `checkAllergies` function of the dashboard component: the nested
`forEach` over drugs (outer) and allergies (inner), accumulating alerts
in push order. -/
def checkAllergies (drugs : List DrugEntry) (allergies : List String) : List AllergyAlert :=
  drugs.flatMap (fun d => allergies.flatMap (fun a => pairAlerts d a))

/-- The per-record match test inside `analyzeInteractions`: both drug
names of the entry pair arrive already lowercased; the record's fields
are lowercased and tested by substring containment in either assignment
order, with two extra exact-equality disjuncts. -/
def recordMatches (item : DrugInteractionData) (drug1 drug2 : String) : Bool :=
  (strIncludes (strLower item.drug1) drug1 && strIncludes (strLower item.drug2) drug2) ||
  (strIncludes (strLower item.drug1) drug2 && strIncludes (strLower item.drug2) drug1) ||
  (strLower item.drug1 = drug1 && strLower item.drug2 = drug2) ||
  (strLower item.drug1 = drug2 && strLower item.drug2 = drug1)

/-- The `activeDataset.find(...)` call of `analyzeInteractions`: first
record in table order that matches the (already lowercased) pair of
names. -/
def findInteraction (table : List DrugInteractionData) (drug1 drug2 : String) :
    Option DrugInteractionData :=
  table.find? (fun item => recordMatches item drug1 drug2)

/-- The body of the inner loop of `analyzeInteractions` for one entry
pair: lowercase both names, look the pair up, and if a record is found
emit a result carrying the record's severity, description and
recommendation together with the two display names in entry order. -/
def emitPair (table : List DrugInteractionData) (a b : DrugEntry) :
    Option InteractionResult :=
  (findInteraction table (strLower a.name) (strLower b.name)).map (fun r =>
    { severity := r.severity,
      drugs := [a.name, b.name],
      description := r.description,
      recommendation := r.recommendation })

/-- All index pairs i < j of the entry list, in the double-loop order of
`analyzeInteractions` (outer i ascending, inner j > i ascending). -/
def drugPairs : List DrugEntry → List (DrugEntry × DrugEntry)
  | [] => []
  | d :: ds => ds.map (fun e => (d, e)) ++ drugPairs ds

/-- The interaction half of `analyzeInteractions`: with an active
non-empty uploaded dataset the double loop collects one result per
matching pair; otherwise the hardcoded `mockInteractions` list is
returned unchanged. -/
def analyzeInteractions (drugs : List DrugEntry)
    (activeDataset : Option (List DrugInteractionData)) : List InteractionResult :=
  match activeDataset with
  | some ds =>
    if ds.length > 0 then
      (drugPairs drugs).filterMap (fun p => emitPair ds p.1 p.2)
    else mockInteractions
  | none => mockInteractions

/-- The validity filter of `handleFileUpload`: JavaScript truthiness of
the four required string fields, i.e. each is non-empty (no trimming
happens at this step). -/
def validRecord (r : DrugInteractionData) : Bool :=
  r.drug1 != "" && r.drug2 != "" && r.severity != "" && r.description != ""

/-- The validate-and-reject step of `handleFileUpload`, applied to the
parsed record list of either path: keep the valid records and fail when
none survives. -/
def ingestRecords (parsed : List DrugInteractionData) :
    Except String (List DrugInteractionData) :=
  let validData := parsed.filter validRecord
  if validData.length = 0 then
    Except.error "No valid drug interaction data found in file"
  else Except.ok validData

/-- Dataset, from the `Dataset` interface of `DatasetManager.tsx`. -/
structure Dataset where
  id : String
  name : String
  uploadDate : String
  rowCount : Nat
  fileSize : String
  status : String
  data : List DrugInteractionData
deriving Repr, DecidableEq

/-- The state effect of `handleFileUpload` on the dataset list: a
successful ingestion appends one new dataset built from the valid
records (rowCount is their number); a failed one leaves the list
unchanged and reports failure. -/
def handleUpload (datasets : List Dataset) (id name uploadDate fileSize : String)
    (parsed : List DrugInteractionData) : List Dataset × Bool :=
  match ingestRecords parsed with
  | Except.ok valid =>
    (datasets ++ [{ id := id, name := name, uploadDate := uploadDate,
                    rowCount := valid.length, fileSize := fileSize,
                    status := "active", data := valid }], true)
  | Except.error _ => (datasets, false)

/-- The record list `exportDataset` serializes: `JSON.stringify` /
`JSON.parse` are browser built-ins whose round trip on a list of
string-field records is the identity, so export is modelled as yielding
the dataset's record list itself. -/
def exportData (d : Dataset) : List DrugInteractionData :=
  d.data

/-- The value cleaner of the CSV path of `handleFileUpload`:
`v.trim().replace(/"/g, '')` — trim, then remove every double-quote
character. -/
def cleanValue (v : String) : String :=
  ⟨removeAllChar '"' (strTrim v).data⟩

/-- Lookup in the `obj` built by the CSV row loop: each header name is
assigned its column's cleaned value (a later duplicate header
overwrites an earlier one), a missing header or missing column yields
the empty string (JavaScript `values[index] || ''` with `undefined`
falsy). -/
def getCol (headers values : List String) (name : String) : String :=
  headers.enum.foldl (fun acc hi => if hi.2 = name then values.getD hi.1 "" else acc) ""

/-- JavaScript `x || y` on strings: the first operand unless it is empty
(falsy). -/
def orDefault (a b : String) : String :=
  if a != "" then a else b

/-- The record built from one CSV data row, with the column aliases of
`handleFileUpload` (`drug 1`, `drugname1`, `interaction`, `advice`,
`evidence level`) and the `mild` severity default. -/
def parseCSVLine (headers : List String) (line : String) : DrugInteractionData :=
  let values := (strSplit ',' line).map cleanValue
  let g := getCol headers values
  { drug1 := orDefault (orDefault (orDefault (g "drug1") (g "drug 1")) (g "drugname1")) "",
    drug2 := orDefault (orDefault (orDefault (g "drug2") (g "drug 2")) (g "drugname2")) "",
    severity := strLower (orDefault (g "severity") "mild"),
    description := orDefault (orDefault (g "description") (g "interaction")) "",
    recommendation := orDefault (orDefault (g "recommendation") (g "advice")) "",
    mechanism := orDefault (g "mechanism") "",
    evidence_level := orDefault (orDefault (g "evidence_level") (g "evidence level")) "" }

/-- The CSV path of `handleFileUpload`: split on newline, lowercase and
trim the header cells, parse every non-blank later line. -/
def parseCSV (text : String) : List DrugInteractionData :=
  match strSplit '\n' text with
  | [] => []
  | header :: rest =>
    let headers := (strSplit ',' header).map (fun h => strLower (strTrim h))
    (rest.filter (fun line => strTrim line != "")).map (parseCSVLine headers)

/-- The containment rule as the specification words it (§4.1): a record
matches the (lowercased) pair of entry names when its drug fields, after
case normalization, contain the two names in either assignment order;
written separately from `recordMatches` so the two can be compared. -/
def containmentRule (r : DrugInteractionData) (nameA nameB : String) : Prop :=
  (strIncludes (strLower r.drug1) nameA = true ∧ strIncludes (strLower r.drug2) nameB = true) ∨
  (strIncludes (strLower r.drug1) nameB = true ∧ strIncludes (strLower r.drug2) nameA = true)

theorem charsStartWith_refl (l : List Char) : charsStartWith l l = true := by
  induction l with
  | nil => rfl
  | cons c cs ih => simp [charsStartWith, ih]

theorem charsContain_refl (l : List Char) : charsContain l l = true := by
  cases l with
  | nil => rfl
  | cons c cs => simp [charsContain, charsStartWith_refl]

theorem strIncludes_refl (s : String) : strIncludes s s = true :=
  charsContain_refl s.data

/-- Exact equality of the lowercased fields is a special case of the
containment rule, so the two extra equality disjuncts in the source's
match test add nothing: the test holds exactly when the spec's rule
does. -/
theorem isSome_map_opt {α β : Type} (f : α → β) (o : Option α) :
    (o.map f).isSome = o.isSome := by
  cases o <;> rfl

theorem recordMatches_iff_rule (r : DrugInteractionData) (a b : String) :
    recordMatches r a b = true ↔ containmentRule r a b := by
  unfold recordMatches containmentRule
  simp only [Bool.or_eq_true, Bool.and_eq_true, decide_eq_true_eq]
  constructor
  · rintro (((⟨h1, h2⟩ | ⟨h1, h2⟩) | ⟨h1, h2⟩) | ⟨h1, h2⟩)
    · exact Or.inl ⟨h1, h2⟩
    · exact Or.inr ⟨h1, h2⟩
    · exact Or.inl ⟨by rw [h1]; exact strIncludes_refl a, by rw [h2]; exact strIncludes_refl b⟩
    · exact Or.inr ⟨by rw [h1]; exact strIncludes_refl b, by rw [h2]; exact strIncludes_refl a⟩
  · rintro (⟨h1, h2⟩ | ⟨h1, h2⟩)
    · exact Or.inl (Or.inl (Or.inl ⟨h1, h2⟩))
    · exact Or.inl (Or.inl (Or.inr ⟨h1, h2⟩))

/-- C1: with an active uploaded table, `analyzeInteractions` is the
double loop over entry pairs, and it emits a finding for a pair exactly
when some record of the table satisfies the containment rule for the
pair's lowercased names. -/
theorem analyze_emits_finding_iff_containment
    (table : List DrugInteractionData) (htable : table ≠ [])
    (drugs : List DrugEntry) :
    analyzeInteractions drugs (some table) =
      (drugPairs drugs).filterMap (fun p => emitPair table p.1 p.2) ∧
    ∀ a b, (a, b) ∈ drugPairs drugs →
      ((emitPair table a b).isSome = true ↔
        ∃ r ∈ table, containmentRule r (strLower a.name) (strLower b.name)) := by
  constructor
  · have h : table.length > 0 := List.length_pos.mpr htable
    simp [analyzeInteractions, h]
  · intro a b _hmem
    unfold emitPair findInteraction
    rw [isSome_map_opt, List.find?_isSome]
    constructor
    · rintro ⟨r, hr, hm⟩
      exact ⟨r, hr, (recordMatches_iff_rule r _ _).mp hm⟩
    · rintro ⟨r, hr, hm⟩
      exact ⟨r, hr, (recordMatches_iff_rule r _ _).mpr hm⟩

/-- Witness for C1 at a one-record table and a two-entry list. -/
theorem analyze_emits_finding_iff_containment_witness :
    analyzeInteractions
        [⟨"1", "Aspirin", "", ""⟩, ⟨"2", "Warfarin", "", ""⟩]
        (some [{ drug1 := "Aspirin", drug2 := "Warfarin", severity := "severe",
                 description := "bleeding risk", recommendation := "" }]) =
      (drugPairs [⟨"1", "Aspirin", "", ""⟩, ⟨"2", "Warfarin", "", ""⟩]).filterMap
        (fun p => emitPair [{ drug1 := "Aspirin", drug2 := "Warfarin", severity := "severe",
                              description := "bleeding risk", recommendation := "" }] p.1 p.2) :=
  (analyze_emits_finding_iff_containment
    [{ drug1 := "Aspirin", drug2 := "Warfarin", severity := "severe",
       description := "bleeding risk", recommendation := "" }]
    (by decide)
    [⟨"1", "Aspirin", "", ""⟩, ⟨"2", "Warfarin", "", ""⟩]).1

/-- C2: with no active dataset, `analyzeInteractions` returns the
hardcoded sample list verbatim, whatever the entered medications. -/
theorem analyze_no_dataset_returns_mock (drugs : List DrugEntry) :
    analyzeInteractions drugs none =
      [ { severity := "severe",
          drugs := ["Warfarin", "Aspirin"],
          description := "Increased risk of bleeding when used together",
          recommendation := "Consider alternative antiplatelet therapy or adjust warfarin dosing with frequent monitoring" },
        { severity := "moderate",
          drugs := ["Metformin", "Contrast Agent"],
          description := "Risk of lactic acidosis with contrast procedures",
          recommendation := "Discontinue metformin 48 hours before and after contrast administration" } ] :=
  rfl

/-- C3 counterexample: a parsed record whose drug1 is a single space is
empty after trimming, yet ingestion retains it and succeeds — the
validity filter tests JavaScript truthiness (non-emptiness) of the raw
field, not of the trimmed field. -/
theorem ingest_trimmed_emptiness_counterexample :
    ingestRecords [{ drug1 := " ", drug2 := "b", severity := "mild",
                     description := "d", recommendation := "" }] =
      Except.ok [{ drug1 := " ", drug2 := "b", severity := "mild",
                   description := "d", recommendation := "" }] ∧
    strTrim " " = "" :=
  ⟨rfl, rfl⟩

/-- C3 amended: a parsed record is retained iff its drug1, drug2,
severity and description are all non-empty as given (no trimming at this
step; CSV values were already trimmed during parsing), and when no
record survives, ingestion fails with the fixed error and the dataset
list is left unchanged. -/
theorem ingest_retention_amended (parsed : List DrugInteractionData) :
    (∀ r, r ∈ parsed.filter validRecord ↔ r ∈ parsed ∧ validRecord r = true) ∧
    (∀ valid, ingestRecords parsed = Except.ok valid → valid = parsed.filter validRecord) ∧
    (parsed.filter validRecord = [] →
      ingestRecords parsed = Except.error "No valid drug interaction data found in file" ∧
      ∀ ds i n d s, handleUpload ds i n d s parsed = (ds, false)) := by
  refine ⟨fun r => List.mem_filter, ?_, ?_⟩
  · intro valid h
    unfold ingestRecords at h
    dsimp only [] at h
    split at h
    · exact absurd h (by simp)
    · injection h with h'
      exact h'.symm
  · intro hempty
    have hlen : (parsed.filter validRecord).length = 0 := by rw [hempty]; rfl
    have herr : ingestRecords parsed =
        Except.error "No valid drug interaction data found in file" := by
      unfold ingestRecords
      rw [if_pos hlen]
    refine ⟨herr, ?_⟩
    intro ds i n d s
    unfold handleUpload
    rw [herr]

/-- Witness for C3's amended theorem: a record with empty drug1 is
dropped, so the upload fails and the dataset list is unchanged, while a
fully non-empty record is retained. -/
theorem ingest_retention_amended_witness :
    handleUpload [] "1" "up" "2024-01-01" "0.1 KB"
        [{ drug1 := "", drug2 := "b", severity := "mild",
           description := "d", recommendation := "" }] = ([], false) ∧
    ([{ drug1 := "a", drug2 := "b", severity := "mild",
        description := "d", recommendation := "" }] : List DrugInteractionData) =
      List.filter validRecord
        [{ drug1 := "a", drug2 := "b", severity := "mild",
           description := "d", recommendation := "" }] := by
  constructor
  · exact ((ingest_retention_amended
      [{ drug1 := "", drug2 := "b", severity := "mild",
         description := "d", recommendation := "" }]).2.2 rfl).2 [] "1" "up" "2024-01-01" "0.1 KB"
  · exact (ingest_retention_amended
      [{ drug1 := "a", drug2 := "b", severity := "mild",
         description := "d", recommendation := "" }]).2.1 _ rfl

/-- C4 counterexample: with an entry name carrying leading whitespace,
the trimmed, lowercased medication name is contained in the trimmed,
lowercased allergy term, yet `checkAllergies` emits nothing — the code
never trims the medication name. -/
theorem allergy_trim_counterexample :
    checkAllergies [⟨"1", " zolpidem", "", ""⟩] ["zolpidem q"] = [] ∧
    strIncludes (strTrim (strLower "zolpidem q")) (strTrim (strLower " zolpidem")) = true :=
  ⟨rfl, rfl⟩

/-- C4 amended: lowercase both strings but trim only the allergy term
(the medication name is lowercased, not trimmed); if either then
contains the other, `checkAllergies` emits at least one severe AVOID
finding for the pair. -/
theorem allergy_direct_rule_amended
    (drugs : List DrugEntry) (allergies : List String)
    (d : DrugEntry) (allergy : String)
    (hd : d ∈ drugs) (ha : allergy ∈ allergies)
    (hmatch : strIncludes (strLower d.name) (strTrim (strLower allergy)) = true ∨
              strIncludes (strTrim (strLower allergy)) (strLower d.name) = true) :
    ∃ alert ∈ checkAllergies drugs allergies,
      alert.drug = d.name ∧ alert.allergen = allergy ∧
      alert.severity = "severe" ∧
      alert.recommendation = "AVOID " ++ d.name ++ " - Patient is allergic to " ++ allergy := by
  refine ⟨{ drug := d.name, allergen := allergy, severity := "severe",
            symptoms := "Allergic reaction possible",
            recommendation := "AVOID " ++ d.name ++ " - Patient is allergic to " ++ allergy },
          ?_, rfl, rfl, rfl, rfl⟩
  unfold checkAllergies
  rw [List.mem_flatMap]
  refine ⟨d, hd, ?_⟩
  rw [List.mem_flatMap]
  refine ⟨allergy, ha, ?_⟩
  have hcond : (strIncludes (strLower d.name) (strTrim (strLower allergy)) ||
      strIncludes (strTrim (strLower allergy)) (strLower d.name)) = true := by
    rcases hmatch with h | h <;> simp [h]
  simp only [pairAlerts]
  rw [if_pos hcond]
  exact List.mem_append_left _ (List.mem_singleton_self _)

/-- Witness for C4's amended theorem at the pair (Aspirin, aspirin). -/
theorem allergy_direct_rule_amended_witness :
    ∃ alert ∈ checkAllergies [⟨"1", "Aspirin", "81mg", "Daily"⟩] ["aspirin"],
      alert.drug = "Aspirin" ∧ alert.allergen = "aspirin" ∧
      alert.severity = "severe" ∧
      alert.recommendation = "AVOID " ++ "Aspirin" ++ " - Patient is allergic to " ++ "aspirin" :=
  allergy_direct_rule_amended [⟨"1", "Aspirin", "81mg", "Daily"⟩] ["aspirin"]
    ⟨"1", "Aspirin", "81mg", "Daily"⟩ "aspirin"
    (List.mem_singleton_self _) (List.mem_singleton_self _)
    (Or.inl rfl)

/-- C5: when the lookup for a pair returns a record, that record is the
first in table order matching the pair, and the emitted finding carries
the record's severity, description and recommendation with the two
display names in entry order. -/
theorem first_match_record_preserved
    (table : List DrugInteractionData) (A B : DrugEntry) (r : DrugInteractionData)
    (hfind : findInteraction table (strLower A.name) (strLower B.name) = some r) :
    recordMatches r (strLower A.name) (strLower B.name) = true ∧
    (∃ pre post, table = pre ++ r :: post ∧
      ∀ r' ∈ pre, recordMatches r' (strLower A.name) (strLower B.name) = false) ∧
    emitPair table A B =
      some { severity := r.severity, drugs := [A.name, B.name],
             description := r.description, recommendation := r.recommendation } := by
  have h := hfind
  unfold findInteraction at h
  rw [List.find?_eq_some] at h
  obtain ⟨hp, pre, post, heq, hall⟩ := h
  refine ⟨hp, ⟨pre, post, heq, fun r' hr' => ?_⟩, ?_⟩
  · simpa using hall r' hr'
  · unfold emitPair
    rw [hfind]
    rfl

/-- Witness for C5: a table whose first and second record both match the
pair; the first one is used. -/
theorem first_match_record_preserved_witness :
    recordMatches
        { drug1 := "Aspirin", drug2 := "Warfarin", severity := "severe",
          description := "first", recommendation := "r1" }
        (strLower "Aspirin") (strLower "Warfarin") = true ∧
    (∃ pre post,
      ([{ drug1 := "Aspirin", drug2 := "Warfarin", severity := "severe",
          description := "first", recommendation := "r1" },
        { drug1 := "aspirin", drug2 := "warfarin", severity := "mild",
          description := "second", recommendation := "r2" }] :
        List DrugInteractionData) =
        pre ++ { drug1 := "Aspirin", drug2 := "Warfarin", severity := "severe",
                 description := "first", recommendation := "r1" } :: post ∧
      ∀ r' ∈ pre, recordMatches r' (strLower "Aspirin") (strLower "Warfarin") = false) ∧
    emitPair
        [{ drug1 := "Aspirin", drug2 := "Warfarin", severity := "severe",
           description := "first", recommendation := "r1" },
         { drug1 := "aspirin", drug2 := "warfarin", severity := "mild",
           description := "second", recommendation := "r2" }]
        ⟨"1", "Aspirin", "", ""⟩ ⟨"2", "Warfarin", "", ""⟩ =
      some { severity := "severe", drugs := ["Aspirin", "Warfarin"],
             description := "first", recommendation := "r1" } :=
  first_match_record_preserved
    [{ drug1 := "Aspirin", drug2 := "Warfarin", severity := "severe",
       description := "first", recommendation := "r1" },
     { drug1 := "aspirin", drug2 := "warfarin", severity := "mild",
       description := "second", recommendation := "r2" }]
    ⟨"1", "Aspirin", "", ""⟩ ⟨"2", "Warfarin", "", ""⟩
    { drug1 := "Aspirin", drug2 := "Warfarin", severity := "severe",
      description := "first", recommendation := "r1" }
    rfl

/-- No double-quote character survives in a string. -/
def noQuote (s : String) : Bool :=
  s.data.all (fun c => c ≠ '"')

theorem removeAllChar_all_ne (target : Char) (l : List Char) :
    ∀ c ∈ removeAllChar target l, c ≠ target := by
  induction l with
  | nil => simp [removeAllChar]
  | cons c cs ih =>
    by_cases hc : c = target
    · simpa [removeAllChar, hc] using ih
    · intro x hx
      simp only [removeAllChar, if_neg hc] at hx
      rcases List.mem_cons.mp hx with h | h
      · subst h; exact hc
      · exact ih x h

theorem noQuote_cleanValue (v : String) : noQuote (cleanValue v) = true := by
  unfold noQuote cleanValue
  rw [List.all_eq_true]
  intro c hc
  simpa using removeAllChar_all_ne '"' (strTrim v).data c hc

theorem toNat_ofNat_valid (n : Nat) (h : n.isValidChar) : (Char.ofNat n).toNat = n := by
  unfold Char.ofNat
  rw [dif_pos h]
  rfl

theorem toLower_eq_quote (c : Char) (h : Char.toLower c = '"') : c = '"' := by
  unfold Char.toLower at h
  simp only [ge_iff_le] at h
  by_cases hc : 65 ≤ c.toNat ∧ c.toNat ≤ 90
  · rw [if_pos hc] at h
    exfalso
    have hv : (c.toNat + 32).isValidChar := Or.inl (by omega)
    have h2 := congrArg Char.toNat h
    rw [toNat_ofNat_valid _ hv] at h2
    have h34 : Char.toNat '"' = 34 := rfl
    omega
  · rw [if_neg hc] at h
    exact h

theorem noQuote_strLower (s : String) (h : noQuote s = true) :
    noQuote (strLower s) = true := by
  unfold noQuote strLower
  unfold noQuote at h
  rw [List.all_eq_true] at h ⊢
  intro c hc
  rw [List.mem_map] at hc
  obtain ⟨c0, hc0, rfl⟩ := hc
  have := h c0 hc0
  simp only [decide_eq_true_eq] at this ⊢
  intro hq
  exact this (toLower_eq_quote c0 hq)

theorem noQuote_orDefault (a b : String) (hq : noQuote a = true) (hb : noQuote b = true) :
    noQuote (orDefault a b) = true := by
  unfold orDefault
  split <;> assumption

theorem getD_eq_or_mem (values : List String) (i : Nat) :
    values.getD i "" = "" ∨ values.getD i "" ∈ values := by
  rw [List.getD_eq_getElem?_getD]
  cases h : values[i]? with
  | none => left; rfl
  | some v =>
    right
    simpa using List.getElem?_mem h

theorem noQuote_getCol (headers values : List String) (name : String)
    (hvals : ∀ v ∈ values, noQuote v = true) :
    noQuote (getCol headers values name) = true := by
  unfold getCol
  have haux : ∀ (l : List (Nat × String)) (acc : String), noQuote acc = true →
      noQuote (l.foldl (fun acc hi => if hi.2 = name then values.getD hi.1 "" else acc) acc) = true := by
    intro l
    induction l with
    | nil => intro acc hacc; exact hacc
    | cons hd tl ih =>
      intro acc hacc
      simp only [List.foldl_cons]
      apply ih
      split
      · rcases getD_eq_or_mem values hd.1 with h | h
        · rw [h]; rfl
        · exact hvals _ h
      · exact hacc
  exact haux headers.enum "" rfl

theorem parseCSVLine_noQuote (headers : List String) (line : String) :
    noQuote (parseCSVLine headers line).drug1 = true ∧
    noQuote (parseCSVLine headers line).drug2 = true ∧
    noQuote (parseCSVLine headers line).severity = true ∧
    noQuote (parseCSVLine headers line).description = true ∧
    noQuote (parseCSVLine headers line).recommendation = true ∧
    noQuote (parseCSVLine headers line).mechanism = true ∧
    noQuote (parseCSVLine headers line).evidence_level = true := by
  have hvals : ∀ v ∈ (strSplit ',' line).map cleanValue, noQuote v = true := by
    intro v hv
    rw [List.mem_map] at hv
    obtain ⟨v0, _, rfl⟩ := hv
    exact noQuote_cleanValue v0
  have hg : ∀ name, noQuote (getCol headers ((strSplit ',' line).map cleanValue) name) = true :=
    fun name => noQuote_getCol headers _ name hvals
  unfold parseCSVLine
  refine ⟨?_, ?_, ?_, ?_, ?_, ?_, ?_⟩ <;>
    first
      | exact noQuote_orDefault _ _ (noQuote_orDefault _ _ (noQuote_orDefault _ _ (hg _) (hg _)) (hg _)) rfl
      | exact noQuote_strLower _ (noQuote_orDefault _ _ (hg _) rfl)
      | exact noQuote_orDefault _ _ (noQuote_orDefault _ _ (hg _) (hg _)) rfl
      | exact noQuote_orDefault _ _ (hg _) rfl

/-- C6 counterexample: a quote character embedded in the interior of a
CSV field value is removed, not preserved — the cleaner deletes every
quote, not only surrounding ones. -/
theorem csv_interior_quote_counterexample :
    parseCSV "drug1,drug2,severity,description\na\"b,c,mild,d" =
      [{ drug1 := "ab", drug2 := "c", severity := "mild",
         description := "d", recommendation := "" }] ∧
    ("ab" : String) ≠ "a\"b" :=
  ⟨rfl, by decide⟩

/-- C6 amended: each CSV data-row value is trimmed and then stripped of
every quote character, so no field of an ingested CSV record contains a
double quote, interior occurrences included. -/
theorem csv_all_quotes_removed_amended (text : String) (r : DrugInteractionData)
    (hr : r ∈ parseCSV text) :
    noQuote r.drug1 = true ∧ noQuote r.drug2 = true ∧ noQuote r.severity = true ∧
    noQuote r.description = true ∧ noQuote r.recommendation = true ∧
    noQuote r.mechanism = true ∧ noQuote r.evidence_level = true := by
  unfold parseCSV at hr
  cases hsplit : strSplit '\n' text with
  | nil => rw [hsplit] at hr; simp at hr
  | cons header rest =>
    rw [hsplit] at hr
    dsimp only [] at hr
    rw [List.mem_map] at hr
    obtain ⟨line, _, rfl⟩ := hr
    exact parseCSVLine_noQuote _ _

/-- Witness for C6's amended theorem at the interior-quote input. -/
theorem csv_all_quotes_removed_amended_witness :
    noQuote ("ab" : String) = true ∧ noQuote ("c" : String) = true ∧
    noQuote ("mild" : String) = true ∧ noQuote ("d" : String) = true ∧
    noQuote ("" : String) = true ∧ noQuote ("" : String) = true ∧
    noQuote ("" : String) = true :=
  csv_all_quotes_removed_amended "drug1,drug2,severity,description\na\"b,c,mild,d"
    { drug1 := "ab", drug2 := "c", severity := "mild",
      description := "d", recommendation := "" }
    (List.mem_singleton_self _)

/-- C7: a successfully ingested record list re-ingests unchanged (the
browser's JSON stringify/parse round trip is the identity on these
string-field records, so export hands back the dataset's record list),
and the dataset built from it keeps the same row count and field
values. -/
theorem json_roundtrip (parsed valid : List DrugInteractionData)
    (h : ingestRecords parsed = Except.ok valid) :
    ingestRecords valid = Except.ok valid ∧
    ∀ datasets i n d s, ∃ ds,
      handleUpload datasets i n d s valid = (datasets ++ [ds], true) ∧
      ds.data = valid ∧ ds.rowCount = valid.length ∧ exportData ds = valid := by
  unfold ingestRecords at h
  dsimp only [] at h
  split at h
  · exact absurd h (by simp)
  · rename_i hlen
    injection h with h'
    subst h'
    have hmem : ∀ r ∈ List.filter validRecord parsed, validRecord r = true :=
      fun r hr => (List.mem_filter.mp hr).2
    have hself : List.filter validRecord (List.filter validRecord parsed) =
        List.filter validRecord parsed :=
      List.filter_eq_self.mpr hmem
    have hok : ingestRecords (List.filter validRecord parsed) =
        Except.ok (List.filter validRecord parsed) := by
      unfold ingestRecords
      dsimp only []
      rw [hself, if_neg hlen]
    refine ⟨hok, ?_⟩
    intro datasets i n d s
    refine ⟨{ id := i, name := n, uploadDate := d,
              rowCount := (List.filter validRecord parsed).length, fileSize := s,
              status := "active", data := List.filter validRecord parsed },
            ?_, rfl, rfl, rfl⟩
    unfold handleUpload
    rw [hok]

/-- Witness for C7 at a one-record upload. -/
theorem json_roundtrip_witness :
    ingestRecords [{ drug1 := "a", drug2 := "b", severity := "mild",
                     description := "d", recommendation := "" }] =
      Except.ok [{ drug1 := "a", drug2 := "b", severity := "mild",
                   description := "d", recommendation := "" }] ∧
    ∃ ds, handleUpload [] "1" "n" "2024-01-01" "0.1 KB"
        [{ drug1 := "a", drug2 := "b", severity := "mild",
           description := "d", recommendation := "" }] = ([] ++ [ds], true) ∧
      ds.data = [{ drug1 := "a", drug2 := "b", severity := "mild",
                   description := "d", recommendation := "" }] ∧
      ds.rowCount = ([{ drug1 := "a", drug2 := "b", severity := "mild",
                        description := "d", recommendation := "" }] :
                       List DrugInteractionData).length ∧
      exportData ds = [{ drug1 := "a", drug2 := "b", severity := "mild",
                         description := "d", recommendation := "" }] := by
  have h := json_roundtrip
    [{ drug1 := "a", drug2 := "b", severity := "mild",
       description := "d", recommendation := "" }]
    [{ drug1 := "a", drug2 := "b", severity := "mild",
       description := "d", recommendation := "" }] rfl
  exact ⟨h.1, h.2 [] "1" "n" "2024-01-01" "0.1 KB"⟩

theorem bool_match_sym (x1 x2 x3 x4 y1 y2 y3 y4 : Bool) :
    (x1 && x2 || x3 && x4 || y1 && y2 || y3 && y4) =
    (x3 && x4 || x1 && x2 || y3 && y4 || y1 && y2) := by
  cases x1 <;> cases x2 <;> cases x3 <;> cases x4 <;>
    cases y1 <;> cases y2 <;> cases y3 <;> cases y4 <;> rfl

theorem recordMatches_symm (r : DrugInteractionData) (a b : String) :
    recordMatches r a b = recordMatches r b a := by
  unfold recordMatches
  exact bool_match_sym _ _ _ _ _ _ _ _

/-- C8: interaction matching is symmetric — swapping the two entries of
a pair leaves the looked-up record, and hence the emitted severity,
description and recommendation, unchanged; only the display order of
the two names reverses. -/
theorem matching_symmetric (table : List DrugInteractionData) (A B : DrugEntry) :
    findInteraction table (strLower A.name) (strLower B.name) =
      findInteraction table (strLower B.name) (strLower A.name) ∧
    (emitPair table A B).map (fun res => (res.severity, res.description, res.recommendation)) =
      (emitPair table B A).map (fun res => (res.severity, res.description, res.recommendation)) ∧
    (emitPair table A B).map InteractionResult.drugs =
      ((emitPair table B A).map InteractionResult.drugs).map List.reverse := by
  have hfind : findInteraction table (strLower A.name) (strLower B.name) =
      findInteraction table (strLower B.name) (strLower A.name) := by
    unfold findInteraction
    congr 1
    funext item
    exact recordMatches_symm item _ _
  refine ⟨hfind, ?_, ?_⟩ <;>
    · unfold emitPair
      rw [hfind]
      cases findInteraction table (strLower B.name) (strLower A.name) <;> rfl

/-- C9 counterexample: for medication "Amoxicillin" and allergy term
"amoxicillin" only the direct-substring rule fires (the class rule
needs the allergy term to contain the class key "penicillin", which
"amoxicillin" does not), so exactly one finding is produced, not two. -/
theorem allergy_both_rules_example_counterexample :
    checkAllergies [⟨"1", "Amoxicillin", "", ""⟩] ["amoxicillin"] =
      [{ drug := "Amoxicillin", allergen := "amoxicillin", severity := "severe",
         symptoms := "Allergic reaction possible",
         recommendation := "AVOID Amoxicillin - Patient is allergic to amoxicillin" }] :=
  rfl

/-- C9 amended: both rules can fire for one pair with no deduplication —
medication "Penicillin" with allergy term "penicillin" yields both the
severe AVOID finding and the penicillin-class CONTRAINDICATED finding. -/
theorem allergy_both_rules_no_dedup_amended :
    checkAllergies [⟨"1", "Penicillin", "", ""⟩] ["penicillin"] =
      [{ drug := "Penicillin", allergen := "penicillin", severity := "severe",
         symptoms := "Allergic reaction possible",
         recommendation := "AVOID Penicillin - Patient is allergic to penicillin" },
       { drug := "Penicillin", allergen := "penicillin", severity := "severe",
         symptoms := "Rash, hives, swelling, difficulty breathing",
         recommendation := "CONTRAINDICATED - Penicillin contains penicillin which patient is allergic to" }] :=
  rfl

/-- C10: every allergy finding has severity severe, moderate or mild and
never safe — the direct rule hardcodes severe and each allergen class
carries one of the three warning severities. -/
theorem allergy_severity_invariant (drugs : List DrugEntry) (allergies : List String)
    (a : AllergyAlert) (ha : a ∈ checkAllergies drugs allergies) :
    (a.severity = "severe" ∨ a.severity = "moderate" ∨ a.severity = "mild") ∧
    a.severity ≠ "safe" := by
  unfold checkAllergies at ha
  rw [List.mem_flatMap] at ha
  obtain ⟨d, _, ha⟩ := ha
  rw [List.mem_flatMap] at ha
  obtain ⟨al, _, ha⟩ := ha
  have hsev : a.severity = "severe" ∨ a.severity = "moderate" ∨ a.severity = "mild" := by
    simp only [pairAlerts] at ha
    rcases List.mem_append.mp ha with h | h
    · split at h
      · rw [List.mem_singleton] at h
        subst h
        left; rfl
      · simp at h
    · rw [List.mem_filterMap] at h
      obtain ⟨ai, hai, hex⟩ := h
      split at hex
      · injection hex with hx
        subst hx
        simp only [commonAllergicReactions, List.mem_cons, List.not_mem_nil, or_false] at hai
        rcases hai with rfl | rfl | rfl | rfl | rfl
        · left; rfl
        · right; left; rfl
        · right; left; rfl
        · left; rfl
        · right; right; rfl
      · exact absurd hex (by simp)
  refine ⟨hsev, ?_⟩
  rcases hsev with h | h | h <;> rw [h] <;> decide

/-- Witness for C10 at a concrete alert produced by the direct rule. -/
theorem allergy_severity_invariant_witness :
    (({ drug := "Aspirin", allergen := "aspirin", severity := "severe",
        symptoms := "Allergic reaction possible",
        recommendation := "AVOID Aspirin - Patient is allergic to aspirin" } :
        AllergyAlert).severity = "severe" ∨
     ({ drug := "Aspirin", allergen := "aspirin", severity := "severe",
        symptoms := "Allergic reaction possible",
        recommendation := "AVOID Aspirin - Patient is allergic to aspirin" } :
        AllergyAlert).severity = "moderate" ∨
     ({ drug := "Aspirin", allergen := "aspirin", severity := "severe",
        symptoms := "Allergic reaction possible",
        recommendation := "AVOID Aspirin - Patient is allergic to aspirin" } :
        AllergyAlert).severity = "mild") ∧
    ({ drug := "Aspirin", allergen := "aspirin", severity := "severe",
       symptoms := "Allergic reaction possible",
       recommendation := "AVOID Aspirin - Patient is allergic to aspirin" } :
       AllergyAlert).severity ≠ "safe" :=
  allergy_severity_invariant [⟨"1", "Aspirin", "", ""⟩] ["aspirin"]
    { drug := "Aspirin", allergen := "aspirin", severity := "severe",
      symptoms := "Allergic reaction possible",
      recommendation := "AVOID Aspirin - Patient is allergic to aspirin" }
    (List.mem_cons_self _ _)

end MedSage
